import Mathlib

/-!
Shallow embedding of the job tracking and orchestration layer of the
sl-behavior repository (`src/sl_behavior/pipeline.py` and
`src/sl_behavior/mcp_server.py`), together with theorems settling the
specification claims about it.

Conventions of the embedding:
* Filesystem paths are lists of path components (`FsPath`).
* The `ProcessingTracker` collaborator (from the external `sl_shared_assets`
  package) is modelled from the specification: a tracker file is an
  association list from job identifiers to job statuses, and the four
  transition operations (`initialize_jobs`, `start_job`, `complete_job`,
  `fail_job`) are explicit state updates.
* Effects of a pipeline run are recorded as an explicit event trace
  (`Event`); replaying a trace over a tracker state yields the persisted
  tracker contents.
* Extractor collaborators are opaque: an oracle `ok : BehaviorJobNames → Bool`
  says whether the extractor for a given job returns normally or raises.
* Python exceptions are modelled with `Option PyErr` results.
-/

/-- A filesystem path, as a list of components. -/
abbrev FsPath : Type := List String

/-- Modelled from the spec: a `JobIdentifier` is an opaque token
deterministically derived from the canonical session root and the qualified
job name, collision-resistant over the name space in use (spec section 3).
The token is modelled as the defining pair itself. -/
abbrev JobId : Type := FsPath × String

/-- The job status state machine of the `ProcessingTracker` collaborator
(spec section 3, `JobStatus`). -/
inductive JobStatus where
  | pending
  | running
  | succeeded
  | failed
deriving DecidableEq, Repr

/-- A tracker file's contents: a mapping from job identifiers to job
records, modelled as an association list (spec section 3, `TrackerFile`). -/
abbrev Tracker : Type := List (JobId × JobStatus)

/-- Sets the status recorded for `id` in an association list, replacing the
first existing record or appending a new one (Python dict update; keys of a
dict are unique). -/
def setStatus : Tracker → JobId → JobStatus → Tracker
  | [], id, s => [(id, s)]
  | p :: rest, id, s => if p.1 = id then (id, s) :: rest else p :: setStatus rest id s

/-- Looks up the status recorded for `id` (Python dict lookup). -/
def getStatus : Tracker → JobId → Option JobStatus
  | [], _ => none
  | p :: rest, id => if p.1 = id then some p.2 else getStatus rest id

/-- Modelled from the spec: `ProcessingTracker.initialize_jobs` creates or
overwrites the listed records, each set to `PENDING` (spec section 4.2). -/
def initialize_jobs (t : Tracker) (ids : List JobId) : Tracker :=
  ids.foldl (fun acc id => setStatus acc id .pending) t

/-- Modelled from the spec: `ProcessingTracker.start_job` transitions the
record to `RUNNING` and persists immediately (spec section 4.2). -/
def start_job (t : Tracker) (id : JobId) : Tracker :=
  setStatus t id .running

/-- Modelled from the spec: `ProcessingTracker.complete_job` transitions the
record to `SUCCEEDED` (spec section 4.2). -/
def complete_job (t : Tracker) (id : JobId) : Tracker :=
  setStatus t id .succeeded

/-- Modelled from the spec: `ProcessingTracker.fail_job` transitions the
record to `FAILED` from any state, including for an identifier that was
never initialized (spec section 4.2). -/
def fail_job (t : Tracker) (id : JobId) : Tracker :=
  setStatus t id .failed

/-- The exception classes the embedding distinguishes. -/
inductive PyErr where
  | typeError
  | valueError
  | keyError
  | extractorFailure
deriving DecidableEq, Repr

/-- `BehaviorJobNames` (`pipeline.py`): the closed set of job kinds of the
behavior pipeline. -/
inductive BehaviorJobNames where
  | RUNTIME
  | FACE_CAMERA
  | BODY_CAMERA
  | ACTOR_MICROCONTROLLER
  | SENSOR_MICROCONTROLLER
  | ENCODER_MICROCONTROLLER
deriving DecidableEq, Repr

/-- The string value of each `BehaviorJobNames` member (`pipeline.py`). -/
def BehaviorJobNames.value : BehaviorJobNames → String
  | .RUNTIME => "runtime_processing"
  | .FACE_CAMERA => "face_camera_processing"
  | .BODY_CAMERA => "body_camera_processing"
  | .ACTOR_MICROCONTROLLER => "actor_microcontroller_processing"
  | .SENSOR_MICROCONTROLLER => "sensor_microcontroller_processing"
  | .ENCODER_MICROCONTROLLER => "encoder_microcontroller_processing"

/-- Iteration order of `BehaviorJobNames` (declaration order of the Python
`StrEnum`). -/
def behaviorJobNamesList : List BehaviorJobNames :=
  [.RUNTIME, .FACE_CAMERA, .BODY_CAMERA, .ACTOR_MICROCONTROLLER,
   .SENSOR_MICROCONTROLLER, .ENCODER_MICROCONTROLLER]

/-- Python `str.endswith`, over the underlying character lists. -/
def pyEndsWith (s suffix : String) : Bool :=
  suffix.data = s.data.drop (s.data.length - suffix.data.length)

/-- One observable tracker or extractor effect of a pipeline run. -/
inductive Event where
  | initJobs (ids : List JobId)
  | trackerStart (id : JobId)
  | trackerComplete (id : JobId)
  | trackerFail (id : JobId)
  | extractorCall (k : BehaviorJobNames)
deriving DecidableEq, Repr

/-- Applies one event to a tracker state; extractor invocations do not touch
the tracker. -/
def applyEvent (t : Tracker) : Event → Tracker
  | .initJobs ids => initialize_jobs t ids
  | .trackerStart id => start_job t id
  | .trackerComplete id => complete_job t id
  | .trackerFail id => fail_job t id
  | .extractorCall _ => t

/-- Replays an event trace over a tracker state. -/
def replay (t : Tracker) (es : List Event) : Tracker :=
  es.foldl applyEvent t

/-- The extractor invocations recorded in an event trace. -/
def extractorCalls (es : List Event) : List BehaviorJobNames :=
  es.filterMap fun e =>
    match e with
    | .extractorCall k => some k
    | _ => none

/-- Modelled from the spec: the fields of the external `SessionData` resolver
output that the core uses (spec section 3, `SessionDescriptor`): the session
root directory holds the raw-data and the tracking-data subtrees, and the
human session name is the root directory's own name. -/
structure SessionData where
  session_name : String
  raw_data_path : FsPath
  tracking_data_path : FsPath
deriving Repr

/-- Modelled from the spec: `SessionData.load` resolves a session root path
into a descriptor (spec sections 3 and 6; glossary: a session is identified
by a root directory containing the raw and processed data subtrees). -/
def SessionData.load (session_path : FsPath) : SessionData :=
  { session_name := session_path.getLastD ""
    raw_data_path := session_path ++ ["raw_data"]
    tracking_data_path := session_path ++ ["tracking_data"] }

/-- `get_session_root` (`pipeline.py`): the parent directory of the session's
raw-data directory. -/
def get_session_root (session : SessionData) : FsPath :=
  session.raw_data_path.dropLast

/-- Modelled from the spec: `ProcessingTracker.generate_job_id`, the
deterministic function of the canonical session root and the qualified job
name (spec sections 3 and 4.2); the identifier is modelled as the argument
pair itself, which is deterministic and collision-free by construction. -/
def generate_job_id (session_path : FsPath) (job_name : String) : JobId :=
  (session_path, job_name)

/-- The extractor-dispatch chain of `_execute_job` (`pipeline.py`): matches
the full job name against the catalog by `str.endswith`, in source order. -/
def matchJob (job_name : String) : Option BehaviorJobNames :=
  if pyEndsWith job_name BehaviorJobNames.RUNTIME.value then some .RUNTIME
  else if pyEndsWith job_name BehaviorJobNames.FACE_CAMERA.value then some .FACE_CAMERA
  else if pyEndsWith job_name BehaviorJobNames.BODY_CAMERA.value then some .BODY_CAMERA
  else if pyEndsWith job_name BehaviorJobNames.ACTOR_MICROCONTROLLER.value then
    some .ACTOR_MICROCONTROLLER
  else if pyEndsWith job_name BehaviorJobNames.SENSOR_MICROCONTROLLER.value then
    some .SENSOR_MICROCONTROLLER
  else if pyEndsWith job_name BehaviorJobNames.ENCODER_MICROCONTROLLER.value then
    some .ENCODER_MICROCONTROLLER
  else none

/-- `_execute_job` (`pipeline.py`): starts the job in the tracker, dispatches
to the extractor matched by job-name suffix, completes the job on normal
return; on any exception it fails the job and re-raises. An unrecognized job
name raises `ValueError` inside the guarded block, so the job is failed
without invoking an extractor. The oracle `ok` states whether a given
extractor returns normally. Returns the event trace and the propagated
exception, if any. -/
def _execute_job (ok : BehaviorJobNames → Bool) (job_name : String) (job_id : JobId) :
    List Event × Option PyErr :=
  let started := [Event.trackerStart job_id]
  match matchJob job_name with
  | some k =>
    if ok k then
      (started ++ [Event.extractorCall k, Event.trackerComplete job_id], none)
    else
      (started ++ [Event.extractorCall k, Event.trackerFail job_id], some .extractorFailure)
  | none =>
    (started ++ [Event.trackerFail job_id], some .valueError)

/-- `_calculate_job_workers` constant `_RESERVED_CORES` (`mcp_server.py`). -/
def RESERVED_CORES : Int := 4

/-- `_calculate_job_workers` constant `_MAXIMUM_JOB_CORES`
(`mcp_server.py`). -/
def MAXIMUM_JOB_CORES : Int := 30

/-- `_calculate_job_workers` (`mcp_server.py`): the CPU budget of one job.
`cpuCount` models `os.cpu_count()` (`none` when the count is unknown). -/
def _calculate_job_workers (cpuCount : Option Int) (requested_workers : Int) : Int :=
  if requested_workers > 0 then
    min requested_workers MAXIMUM_JOB_CORES
  else
    match cpuCount with
    | none => RESERVED_CORES
    | some available_cores => min (max 1 (available_cores - RESERVED_CORES)) MAXIMUM_JOB_CORES


/-- A dict lookup in a `str`-keyed dict of job identifiers
(`job_ids[full_job_name]`); `none` models a `KeyError`. -/
def dictGetId (d : List (String × JobId)) (k : String) : Option JobId :=
  (d.find? (fun p => p.1 == k)).map (·.2)

/-- The `id_to_name` reverse dict of `process_session`'s remote mode, as an
association list updated with dict semantics (later keys overwrite). -/
def setName : List (JobId × String) → JobId → String → List (JobId × String)
  | [], id, n => [(id, n)]
  | p :: rest, id, n => if p.1 = id then (id, n) :: rest else p :: setName rest id n

/-- A dict lookup in the `id_to_name` reverse dict (`id_to_name[job_id]`). -/
def dictGetName (d : List (JobId × String)) (id : JobId) : Option String :=
  (d.find? (fun p => p.1 == id)).map (·.2)

/-- The requested-job keyword flags of `process_session`
(`start_processing_tool` uses the same six flags). -/
structure JobFlags where
  process_runtime : Bool
  process_face_camera : Bool
  process_body_camera : Bool
  process_actor_microcontroller : Bool
  process_sensor_microcontroller : Bool
  process_encoder_microcontroller : Bool
deriving DecidableEq, Repr

/-- `_resolve_available_jobs` (`pipeline.py`): maps each job name to whether
its required log file exists. The filesystem is abstracted by the oracle
`logExists`, one flag per job kind's log file. -/
def _resolve_available_jobs (logExists : BehaviorJobNames → Bool) :
    List (BehaviorJobNames × Bool) :=
  [(.RUNTIME, logExists .RUNTIME),
   (.FACE_CAMERA, logExists .FACE_CAMERA),
   (.BODY_CAMERA, logExists .BODY_CAMERA),
   (.ACTOR_MICROCONTROLLER, logExists .ACTOR_MICROCONTROLLER),
   (.SENSOR_MICROCONTROLLER, logExists .SENSOR_MICROCONTROLLER),
   (.ENCODER_MICROCONTROLLER, logExists .ENCODER_MICROCONTROLLER)]

/-- A dict lookup in a job-flag dict (`available_jobs[base_job_name]`). -/
def lookupFlag (d : List (BehaviorJobNames × Bool)) (k : BehaviorJobNames) : Bool :=
  (((d.find? (fun p => p.1 == k)).map (·.2)).getD false)

/-- The `requested_jobs` dict literal of `process_session` and
`start_processing_tool`. -/
def requested_jobs (f : JobFlags) : List (BehaviorJobNames × Bool) :=
  [(.RUNTIME, f.process_runtime),
   (.FACE_CAMERA, f.process_face_camera),
   (.BODY_CAMERA, f.process_body_camera),
   (.ACTOR_MICROCONTROLLER, f.process_actor_microcontroller),
   (.SENSOR_MICROCONTROLLER, f.process_sensor_microcontroller),
   (.ENCODER_MICROCONTROLLER, f.process_encoder_microcontroller)]

/-- The all-false-means-all-true normalization shared by `process_session`
and `start_processing_tool`: if no flag is set, every flag is treated as
set (`dict.fromkeys(requested_jobs, True)`). -/
def effective_requested (rj : List (BehaviorJobNames × Bool)) :
    List (BehaviorJobNames × Bool) :=
  if rj.any (·.2) then rj else rj.map (fun p => (p.1, true))

/-- The `base_jobs_to_run` list comprehension shared by `process_session`
and `start_processing_tool`: the requested jobs that are also available. -/
def base_jobs_to_run (f : JobFlags) (logExists : BehaviorJobNames → Bool) :
    List BehaviorJobNames :=
  ((effective_requested (requested_jobs f)).filter
    (fun p => p.2 && lookupFlag (_resolve_available_jobs logExists) p.1)).map (·.1)

/-- `_generate_job_ids` (`pipeline.py`): maps each full job name (session
name prefix plus base job name) to its generated identifier, using the
canonical session root. -/
def _generate_job_ids (session : SessionData) (base_job_names : List BehaviorJobNames) :
    List (String × JobId) :=
  base_job_names.map (fun b =>
    let full_job_name := session.session_name ++ "_" ++ b.value
    (full_job_name, generate_job_id (get_session_root session) full_job_name))

/-- `_initialize_processing_tracker` (`pipeline.py`): loads the session,
generates the job identifiers and initializes all of them in the tracker
file. Returns the name-to-identifier dict and the tracker events. -/
def _initialize_processing_tracker (session_path : FsPath)
    (base_job_names : List BehaviorJobNames) : List (String × JobId) × List Event :=
  let session := SessionData.load session_path
  let job_ids := _generate_job_ids session base_job_names
  (job_ids, [Event.initJobs (job_ids.map (·.2))])

/-- The per-job `for` loop of `process_session`'s local mode: runs the jobs
sequentially through `_execute_job`; an exception propagating out of
`_execute_job` aborts the loop and the whole call. -/
def runJobsLocal (ok : BehaviorJobNames → Bool) (session_name : String)
    (job_ids : List (String × JobId)) :
    List BehaviorJobNames → List Event × Option PyErr
  | [] => ([], none)
  | b :: rest =>
    let full_job_name := session_name ++ "_" ++ b.value
    match dictGetId job_ids full_job_name with
    | none => ([], some .keyError)
    | some job_id =>
      let r := _execute_job ok full_job_name job_id
      match r.2 with
      | some e => (r.1, some e)
      | none =>
        let r' := runJobsLocal ok session_name job_ids rest
        (r.1 ++ r'.1, r'.2)

/-- `process_session` (`pipeline.py`): remote mode when an explicit `job_id`
is supplied, local mode otherwise. Returns the event trace and the
propagated exception, if any. -/
def process_session (ok : BehaviorJobNames → Bool) (logExists : BehaviorJobNames → Bool)
    (session_path : FsPath) (job_id : Option JobId) (f : JobFlags) :
    List Event × Option PyErr :=
  let session := SessionData.load session_path
  let session_name := session.session_name
  match job_id with
  | some jid =>
    let all_job_ids := _generate_job_ids session behaviorJobNamesList
    let id_to_name := all_job_ids.foldl (fun acc p => setName acc p.2 p.1) []
    match dictGetName id_to_name jid with
    | none => ([Event.trackerFail jid], some .valueError)
    | some job_name => _execute_job ok job_name jid
  | none =>
    let jobs := base_jobs_to_run f logExists
    let init := _initialize_processing_tracker session_path jobs
    let r := runJobsLocal ok session_name init.1 jobs
    (init.2 ++ r.1, r.2)

/-- `_execute_single_job` (`mcp_server.py`): wraps `_execute_job`, catching
any exception and reporting the job name, a success flag and the error
message instead of re-raising. -/
def _execute_single_job (ok : BehaviorJobNames → Bool) (base_job_name : BehaviorJobNames)
    (session_name : String) (job_id : JobId) :
    List Event × (BehaviorJobNames × Bool × Option PyErr) :=
  let full_job_name := session_name ++ "_" ++ base_job_name.value
  let r := _execute_job ok full_job_name job_id
  match r.2 with
  | some e => (r.1, (base_job_name, false, some e))
  | none => (r.1, (base_job_name, true, none))

/-- The sequential job loop of `_run_processing_in_background`
(`mcp_server.py`): exceptions are swallowed per job by
`_execute_single_job`, so every listed job is attempted. A missing dict key
(`job_ids[...]`) would be a `KeyError` escaping the loop. -/
def runJobsBackground (ok : BehaviorJobNames → Bool) (session_name : String)
    (job_ids : List (String × JobId)) :
    List BehaviorJobNames → List Event × Option PyErr
  | [] => ([], none)
  | b :: rest =>
    match dictGetId job_ids (session_name ++ "_" ++ b.value) with
    | none => ([], some .keyError)
    | some job_id =>
      let r := _execute_single_job ok b session_name job_id
      let r' := runJobsBackground ok session_name job_ids rest
      (r.1 ++ r'.1, r'.2)

/-- The parameter names of `_initialize_processing_tracker`'s Python
signature (`pipeline.py`), in order; no parameter has a default value. -/
def initializeProcessingTrackerParams : List String :=
  ["session_path", "base_job_names"]

/-- The keyword-argument names `_run_processing_in_background` passes when
calling `_initialize_processing_tracker` (`mcp_server.py`). -/
def backgroundInitCallKwargs : List String :=
  ["session_path", "session_name", "base_job_names"]

/-- Python keyword-call binding: the call succeeds (no `TypeError`) iff
every keyword names a declared parameter and every parameter without a
default value is supplied. -/
def kwargsCallOk (params kwargs : List String) : Bool :=
  kwargs.all (fun k => params.contains k) && params.all (fun p => kwargs.contains p)

/-- `str(session_path)`: the dictionary key used in `_active_sessions`. -/
def pathKey (p : FsPath) : String := String.intercalate "/" p

/-- The `_active_sessions` module state (`mcp_server.py`): session key to
thread handle; the `Bool` models `thread.is_alive()`. -/
abbrev ActiveSessions : Type := List (String × Bool)

/-- `session_key in _active_sessions and thread.is_alive()`. -/
def aliveIn (active : ActiveSessions) (key : String) : Bool :=
  (((active.find? (fun p => p.1 == key)).map (·.2)).getD false)

/-- `session_key in _active_sessions`. -/
def keyIn (active : ActiveSessions) (key : String) : Bool :=
  active.any (fun p => p.1 == key)

/-- `del _active_sessions[session_key]` / `.pop(session_key, None)`. -/
def removeKey (active : ActiveSessions) (key : String) : ActiveSessions :=
  active.filter (fun p => p.1 != key)

/-- `_active_sessions[session_key] = thread` (dict update). -/
def setKey : ActiveSessions → String → Bool → ActiveSessions
  | [], key, b => [(key, b)]
  | p :: rest, key, b => if p.1 = key then (key, b) :: rest else p :: setKey rest key b

/-- The outcome of one `_run_processing_in_background` thread body. -/
structure BackgroundRunResult where
  events : List Event
  swallowed : Option PyErr
  activeAfter : ActiveSessions
deriving Repr

/-- `_run_processing_in_background` (`mcp_server.py`): the background thread
body. It calls `_initialize_processing_tracker` with keyword arguments
`session_path`, `session_name` and `base_job_names`; if that call binds, the
tracker is initialized and every job runs via `_execute_single_job`. Any
exception — including a `TypeError` from a call that does not bind — is
swallowed by the bare `except`, and the `finally` block removes the session
from `_active_sessions`. -/
def _run_processing_in_background (ok : BehaviorJobNames → Bool)
    (active : ActiveSessions) (session_path : FsPath)
    (base_jobs_to_run : List BehaviorJobNames) : BackgroundRunResult :=
  let session_key := pathKey session_path
  if kwargsCallOk initializeProcessingTrackerParams backgroundInitCallKwargs then
    let session := SessionData.load session_path
    let init := _initialize_processing_tracker session_path base_jobs_to_run
    let r := runJobsBackground ok session.session_name init.1 base_jobs_to_run
    { events := init.2 ++ r.1, swallowed := r.2,
      activeAfter := removeKey active session_key }
  else
    { events := [], swallowed := some .typeError,
      activeAfter := removeKey active session_key }

/-- The outcome of one `start_processing_tool` call. -/
structure StartResult where
  message : String
  newActive : ActiveSessions
  threadStarted : Bool
deriving Repr

/-- `start_processing_tool` (`mcp_server.py`): validates the request, picks
the jobs to run, computes the per-job worker budget, starts the background
thread and records it in `_active_sessions`. `pathExists` models
`Path(session_path).exists()`; `loadOk` models whether `SessionData.load`
succeeds (its exception text is abstracted). Returns the tool's reply, the
updated `_active_sessions`, and whether a background thread was started. -/
def start_processing_tool (cpuCount : Option Int) (active : ActiveSessions)
    (pathExists : Bool) (loadOk : Bool) (session_path : FsPath)
    (logExists : BehaviorJobNames → Bool) (f : JobFlags) (workers : Int) : StartResult :=
  let spStr := pathKey session_path
  if !pathExists then
    { message := "Error: Session path does not exist: " ++ spStr,
      newActive := active, threadStarted := false }
  else
    let session_key := spStr
    if aliveIn active session_key then
      { message := "Error: Processing already in progress for session: " ++ spStr,
        newActive := active, threadStarted := false }
    else
      let active1 := removeKey active session_key
      if !loadOk then
        { message := "Error: " ++ "the session could not be loaded",
          newActive := active1, threadStarted := false }
      else
        let jobs := base_jobs_to_run f logExists
        if jobs.isEmpty then
          { message := "Error: No jobs available to run for session: " ++ spStr,
            newActive := active1, threadStarted := false }
        else
          let job_workers := _calculate_job_workers cpuCount workers
          { message := "Processing started: " ++ toString jobs.length
              ++ " jobs | Workers: " ++ toString job_workers ++ " | Session: " ++ spStr,
            newActive := setKey active1 session_key true, threadStarted := true }

/-- `_get_session_status` (`mcp_server.py`), status field only. `is_active`
models "`_active_sessions` holds a live thread for this session";
`trackerFile` is the tracker file's record map, `none` when the file does
not exist. The fourth counter of the source's tally loop (its `else` arm)
counts exactly the PENDING records, the only status besides SUCCEEDED,
FAILED and RUNNING. -/
def _get_session_status (is_active : Bool) (trackerFile : Option Tracker) : String :=
  match trackerFile with
  | none => "NOT_STARTED"
  | some jobs =>
    if jobs.isEmpty then "NOT_STARTED"
    else
      let succeeded_count := jobs.countP (fun j => j.2 == .succeeded)
      let failed_count := jobs.countP (fun j => j.2 == .failed)
      let running_count := jobs.countP (fun j => j.2 == .running)
      let pending_count := jobs.countP (fun j => j.2 == .pending)
      let total_count := jobs.length
      if is_active || running_count > 0 then "PROCESSING"
      else if failed_count > 0 && succeeded_count > 0 then "PARTIAL"
      else if failed_count > 0 then "FAILED"
      else if succeeded_count == total_count then "SUCCEEDED"
      else if pending_count > 0 then "PENDING"
      else "UNKNOWN"

/-- A job record's status is terminal: SUCCEEDED or FAILED. -/
def JobStatus.terminal : JobStatus → Bool
  | .succeeded => true
  | .failed => true
  | _ => false

/-- A job record counts as attempted once it has been started, that is,
once its status has left PENDING. -/
def JobStatus.attempted : JobStatus → Bool
  | .pending => false
  | _ => true

/-- The status-derivation rules in the claim's own wording (first match
wins), with its NOT_STARTED clause amended to: NOT_STARTED when no tracker
file exists or the tracker holds no records. -/
def claimSessionStatus (is_active : Bool) (trackerFile : Option Tracker) : String :=
  match trackerFile with
  | none => "NOT_STARTED"
  | some jobs =>
    if jobs.isEmpty then "NOT_STARTED"
    else if is_active || jobs.any (fun j => j.2 == .running) then "PROCESSING"
    else if (jobs.all fun j => !j.2.attempted || j.2.terminal)
        && jobs.any (fun j => j.2 == .failed)
        && !(jobs.any (fun j => j.2 == .succeeded)) then "FAILED"
    else if jobs.any (fun j => j.2 == .succeeded)
        && jobs.any (fun j => j.2 == .failed) then "PARTIAL"
    else if jobs.all (fun j => j.2 == .succeeded) then "SUCCEEDED"
    else if !jobs.isEmpty && !(jobs.all (fun j => j.2.terminal)) && !is_active
        && !(jobs.any (fun j => j.2 == .running)) then "PENDING"
    else "UNKNOWN"

/-- The admission-control formula the claim asserts (spec section 4.5):
`max_parallel_sessions = max(1, (cpu_count + reserved_margin) // max_job_cores)`. -/
def spec_max_parallel_sessions (cpu_count reserved_margin : Int) : Int :=
  max 1 ((cpu_count + reserved_margin) / MAXIMUM_JOB_CORES)

/-- The number of sessions with a live background thread. -/
def activeCount (active : ActiveSessions) : Nat :=
  active.countP (fun p => p.2)

/-- The request flag of one job kind (the value stored for that key in the
`requested_jobs` dict literal). -/
def flagOf (f : JobFlags) : BehaviorJobNames → Bool
  | .RUNTIME => f.process_runtime
  | .FACE_CAMERA => f.process_face_camera
  | .BODY_CAMERA => f.process_body_camera
  | .ACTOR_MICROCONTROLLER => f.process_actor_microcontroller
  | .SENSOR_MICROCONTROLLER => f.process_sensor_microcontroller
  | .ENCODER_MICROCONTROLLER => f.process_encoder_microcontroller

/-- The identifier the pipeline generates for one job of a session: the id
of the qualified job name, keyed on the canonical session root. -/
def idOfJob (session : SessionData) (k : BehaviorJobNames) : JobId :=
  generate_job_id (get_session_root session) (session.session_name ++ "_" ++ k.value)

/-- The event trace of a run of consecutive successful jobs: each job is
started, its extractor invoked, and the job completed. -/
def successTrace (idOf : BehaviorJobNames → JobId) : List BehaviorJobNames → List Event
  | [] => []
  | k :: rest =>
    [.trackerStart (idOf k), .extractorCall k, .trackerComplete (idOf k)]
      ++ successTrace idOf rest

/-- A concrete extractor oracle for concrete runs: only the face-camera
extractor returns normally. -/
def okFaceOnly : BehaviorJobNames → Bool
  | .FACE_CAMERA => true
  | _ => false

/-- A concrete availability oracle for concrete runs: only the runtime and
face-camera log files exist. -/
def availRuntimeFace : BehaviorJobNames → Bool
  | .RUNTIME => true
  | .FACE_CAMERA => true
  | _ => false

/-! ### Association-list and replay lemmas -/

theorem getStatus_setStatus_self (t : Tracker) (id : JobId) (s : JobStatus) :
    getStatus (setStatus t id s) id = some s := by
  induction t with
  | nil => simp [setStatus, getStatus]
  | cons p rest ih =>
    by_cases h : p.1 = id
    · simp [setStatus, getStatus, h]
    · simp [setStatus, getStatus, h, ih]

theorem getStatus_setStatus_ne (t : Tracker) (id id' : JobId) (s : JobStatus)
    (h : id' ≠ id) : getStatus (setStatus t id s) id' = getStatus t id' := by
  induction t with
  | nil =>
    have hne : ¬ (id = id') := fun he => h he.symm
    simp [setStatus, getStatus, hne]
  | cons p rest ih =>
    by_cases hp : p.1 = id
    · have hne : ¬ (id = id') := fun he => h he.symm
      have hne' : ¬ (p.1 = id') := fun he => h (he.symm.trans hp)
      simp [setStatus, getStatus, hp, hne, hne']
    · by_cases hp' : p.1 = id'
      · simp [setStatus, getStatus, hp, hp', h]
      · simp [setStatus, getStatus, hp, hp', ih]

theorem initialize_jobs_cons (t : Tracker) (i : JobId) (rest : List JobId) :
    initialize_jobs t (i :: rest) = initialize_jobs (setStatus t i .pending) rest := rfl

theorem getStatus_initialize_of_not_mem (ids : List JobId) (t : Tracker) (id : JobId)
    (h : id ∉ ids) : getStatus (initialize_jobs t ids) id = getStatus t id := by
  induction ids generalizing t with
  | nil => rfl
  | cons i rest ih =>
    rw [initialize_jobs_cons, ih _ (fun hm => h (List.mem_cons_of_mem _ hm))]
    exact getStatus_setStatus_ne _ _ _ _ (fun he => h (he ▸ List.mem_cons_self _ _))

theorem getStatus_initialize_of_mem (ids : List JobId) (t : Tracker) (id : JobId)
    (h : id ∈ ids) : getStatus (initialize_jobs t ids) id = some .pending := by
  induction ids generalizing t with
  | nil => cases h
  | cons i rest ih =>
    rw [initialize_jobs_cons]
    by_cases hr : id ∈ rest
    · exact ih _ hr
    · have hi : id = i := by
        rcases List.mem_cons.mp h with h1 | h1
        · exact h1
        · exact absurd h1 hr
      rw [getStatus_initialize_of_not_mem _ _ _ hr, hi]
      exact getStatus_setStatus_self _ _ _

theorem replay_append (t : Tracker) (es₁ es₂ : List Event) :
    replay t (es₁ ++ es₂) = replay (replay t es₁) es₂ :=
  List.foldl_append _ _ _ _

/-- Whether an event writes a record for `id`. -/
def Event.writes (id : JobId) : Event → Prop
  | .initJobs ids => id ∈ ids
  | .trackerStart i => i = id
  | .trackerComplete i => i = id
  | .trackerFail i => i = id
  | .extractorCall _ => False

theorem getStatus_applyEvent_of_not_writes (t : Tracker) (e : Event) (id : JobId)
    (h : ¬ e.writes id) : getStatus (applyEvent t e) id = getStatus t id := by
  cases e with
  | initJobs ids => exact getStatus_initialize_of_not_mem _ _ _ h
  | trackerStart i => exact getStatus_setStatus_ne _ _ _ _ (fun he => h he.symm)
  | trackerComplete i => exact getStatus_setStatus_ne _ _ _ _ (fun he => h he.symm)
  | trackerFail i => exact getStatus_setStatus_ne _ _ _ _ (fun he => h he.symm)
  | extractorCall _ => rfl

theorem getStatus_replay_of_not_writes (es : List Event) (t : Tracker) (id : JobId)
    (h : ∀ e ∈ es, ¬ e.writes id) : getStatus (replay t es) id = getStatus t id := by
  induction es generalizing t with
  | nil => rfl
  | cons e rest ih =>
    rw [show replay t (e :: rest) = replay (applyEvent t e) rest from rfl]
    rw [ih _ (fun e' he' => h e' (List.mem_cons_of_mem _ he'))]
    exact getStatus_applyEvent_of_not_writes _ _ _ (h e (List.mem_cons_self _ _))

/-- C8: `_execute_job` performs the tracker transitions in order: the first
persisted event is `start_job` (RUNNING precedes the job body); on normal
extractor return the final record is SUCCEEDED; on an extractor exception
the record is FAILED and the exception is re-raised; an unrecognized job
name yields a `ValueError`, a FAILED record, and no extractor invocation. -/
theorem c8_execute_job_transitions (ok : BehaviorJobNames → Bool) (job_name : String)
    (job_id : JobId) (t : Tracker) :
    (_execute_job ok job_name job_id).1.head? = some (.trackerStart job_id) ∧
    extractorCalls (_execute_job ok job_name job_id).1 = (matchJob job_name).toList ∧
    (_execute_job ok job_name job_id).2 =
      (match matchJob job_name with
       | some k => if ok k then none else some .extractorFailure
       | none => some .valueError) ∧
    getStatus (replay t (_execute_job ok job_name job_id).1) job_id =
      some (match matchJob job_name with
            | some k => if ok k then .succeeded else .failed
            | none => .failed) := by
  unfold _execute_job
  cases hm : matchJob job_name with
  | none => exact ⟨rfl, rfl, rfl, getStatus_setStatus_self _ _ _⟩
  | some k =>
    by_cases hok : ok k
    · simp only [hok, if_true]
      refine ⟨?_, ?_, ?_, getStatus_setStatus_self _ _ _⟩ <;> trivial
    · simp only [hok, Bool.false_eq_true, if_false]
      refine ⟨?_, ?_, ?_, getStatus_setStatus_self _ _ _⟩ <;> trivial

/-- C10: the per-job worker budget equals `min(requested_or_default, 30)`:
a positive requested count is capped at 30; otherwise the default is the
CPU count minus the 4 reserved cores, floored at 1 and capped at 30. -/
theorem c10_job_worker_budget (cpu requested : Int) :
    _calculate_job_workers (some cpu) requested =
      min (if 0 < requested then requested else min (max 1 (cpu - 4)) 30) 30 := by
  unfold _calculate_job_workers RESERVED_CORES MAXIMUM_JOB_CORES
  dsimp only
  split <;> omega

/-! ### String-suffix lemmas for the job-name dispatch -/

theorem pyEndsWith_append (s u v : String) (h : v.data.length ≤ u.data.length) :
    pyEndsWith (s ++ u) v = pyEndsWith u v := by
  unfold pyEndsWith
  rw [String.data_append]
  have hlen : (s.data ++ u.data).length - v.data.length
      = s.data.length + (u.data.length - v.data.length) := by
    simp only [List.length_append]
    omega
  rw [hlen, List.drop_append]

theorem pyEndsWith_full (sname : String) (k k' : BehaviorJobNames)
    (h : k'.value.data.length ≤ ("_" ++ k.value).data.length) :
    pyEndsWith (sname ++ "_" ++ k.value) k'.value
      = pyEndsWith ("_" ++ k.value) k'.value := by
  rw [String.append_assoc]
  exact pyEndsWith_append _ _ _ h

theorem matchJob_full (sname : String) (k : BehaviorJobNames) :
    matchJob (sname ++ "_" ++ k.value) = some k := by
  cases k with
  | RUNTIME =>
    unfold matchJob
    rw [pyEndsWith_full sname .RUNTIME .RUNTIME (by decide),
        show pyEndsWith ("_" ++ BehaviorJobNames.RUNTIME.value)
          BehaviorJobNames.RUNTIME.value = true from by decide]
    simp
  | FACE_CAMERA =>
    unfold matchJob
    rw [pyEndsWith_full sname .FACE_CAMERA .RUNTIME (by decide),
        pyEndsWith_full sname .FACE_CAMERA .FACE_CAMERA (by decide),
        show pyEndsWith ("_" ++ BehaviorJobNames.FACE_CAMERA.value)
          BehaviorJobNames.RUNTIME.value = false from by decide,
        show pyEndsWith ("_" ++ BehaviorJobNames.FACE_CAMERA.value)
          BehaviorJobNames.FACE_CAMERA.value = true from by decide]
    simp
  | BODY_CAMERA =>
    unfold matchJob
    rw [pyEndsWith_full sname .BODY_CAMERA .RUNTIME (by decide),
        pyEndsWith_full sname .BODY_CAMERA .FACE_CAMERA (by decide),
        pyEndsWith_full sname .BODY_CAMERA .BODY_CAMERA (by decide),
        show pyEndsWith ("_" ++ BehaviorJobNames.BODY_CAMERA.value)
          BehaviorJobNames.RUNTIME.value = false from by decide,
        show pyEndsWith ("_" ++ BehaviorJobNames.BODY_CAMERA.value)
          BehaviorJobNames.FACE_CAMERA.value = false from by decide,
        show pyEndsWith ("_" ++ BehaviorJobNames.BODY_CAMERA.value)
          BehaviorJobNames.BODY_CAMERA.value = true from by decide]
    simp
  | ACTOR_MICROCONTROLLER =>
    unfold matchJob
    rw [pyEndsWith_full sname .ACTOR_MICROCONTROLLER .RUNTIME (by decide),
        pyEndsWith_full sname .ACTOR_MICROCONTROLLER .FACE_CAMERA (by decide),
        pyEndsWith_full sname .ACTOR_MICROCONTROLLER .BODY_CAMERA (by decide),
        pyEndsWith_full sname .ACTOR_MICROCONTROLLER .ACTOR_MICROCONTROLLER (by decide),
        show pyEndsWith ("_" ++ BehaviorJobNames.ACTOR_MICROCONTROLLER.value)
          BehaviorJobNames.RUNTIME.value = false from by decide,
        show pyEndsWith ("_" ++ BehaviorJobNames.ACTOR_MICROCONTROLLER.value)
          BehaviorJobNames.FACE_CAMERA.value = false from by decide,
        show pyEndsWith ("_" ++ BehaviorJobNames.ACTOR_MICROCONTROLLER.value)
          BehaviorJobNames.BODY_CAMERA.value = false from by decide,
        show pyEndsWith ("_" ++ BehaviorJobNames.ACTOR_MICROCONTROLLER.value)
          BehaviorJobNames.ACTOR_MICROCONTROLLER.value = true from by decide]
    simp
  | SENSOR_MICROCONTROLLER =>
    unfold matchJob
    rw [pyEndsWith_full sname .SENSOR_MICROCONTROLLER .RUNTIME (by decide),
        pyEndsWith_full sname .SENSOR_MICROCONTROLLER .FACE_CAMERA (by decide),
        pyEndsWith_full sname .SENSOR_MICROCONTROLLER .BODY_CAMERA (by decide),
        pyEndsWith_full sname .SENSOR_MICROCONTROLLER .ACTOR_MICROCONTROLLER (by decide),
        pyEndsWith_full sname .SENSOR_MICROCONTROLLER .SENSOR_MICROCONTROLLER (by decide),
        show pyEndsWith ("_" ++ BehaviorJobNames.SENSOR_MICROCONTROLLER.value)
          BehaviorJobNames.RUNTIME.value = false from by decide,
        show pyEndsWith ("_" ++ BehaviorJobNames.SENSOR_MICROCONTROLLER.value)
          BehaviorJobNames.FACE_CAMERA.value = false from by decide,
        show pyEndsWith ("_" ++ BehaviorJobNames.SENSOR_MICROCONTROLLER.value)
          BehaviorJobNames.BODY_CAMERA.value = false from by decide,
        show pyEndsWith ("_" ++ BehaviorJobNames.SENSOR_MICROCONTROLLER.value)
          BehaviorJobNames.ACTOR_MICROCONTROLLER.value = false from by decide,
        show pyEndsWith ("_" ++ BehaviorJobNames.SENSOR_MICROCONTROLLER.value)
          BehaviorJobNames.SENSOR_MICROCONTROLLER.value = true from by decide]
    simp
  | ENCODER_MICROCONTROLLER =>
    unfold matchJob
    rw [pyEndsWith_full sname .ENCODER_MICROCONTROLLER .RUNTIME (by decide),
        pyEndsWith_full sname .ENCODER_MICROCONTROLLER .FACE_CAMERA (by decide),
        pyEndsWith_full sname .ENCODER_MICROCONTROLLER .BODY_CAMERA (by decide),
        pyEndsWith_full sname .ENCODER_MICROCONTROLLER .ACTOR_MICROCONTROLLER (by decide),
        pyEndsWith_full sname .ENCODER_MICROCONTROLLER .SENSOR_MICROCONTROLLER (by decide),
        pyEndsWith_full sname .ENCODER_MICROCONTROLLER .ENCODER_MICROCONTROLLER (by decide),
        show pyEndsWith ("_" ++ BehaviorJobNames.ENCODER_MICROCONTROLLER.value)
          BehaviorJobNames.RUNTIME.value = false from by decide,
        show pyEndsWith ("_" ++ BehaviorJobNames.ENCODER_MICROCONTROLLER.value)
          BehaviorJobNames.FACE_CAMERA.value = false from by decide,
        show pyEndsWith ("_" ++ BehaviorJobNames.ENCODER_MICROCONTROLLER.value)
          BehaviorJobNames.BODY_CAMERA.value = false from by decide,
        show pyEndsWith ("_" ++ BehaviorJobNames.ENCODER_MICROCONTROLLER.value)
          BehaviorJobNames.ACTOR_MICROCONTROLLER.value = false from by decide,
        show pyEndsWith ("_" ++ BehaviorJobNames.ENCODER_MICROCONTROLLER.value)
          BehaviorJobNames.SENSOR_MICROCONTROLLER.value = false from by decide,
        show pyEndsWith ("_" ++ BehaviorJobNames.ENCODER_MICROCONTROLLER.value)
          BehaviorJobNames.ENCODER_MICROCONTROLLER.value = true from by decide]
    simp

theorem value_injective (k₁ k₂ : BehaviorJobNames) (h : k₁.value = k₂.value) : k₁ = k₂ := by
  cases k₁ <;> cases k₂ <;> first | rfl | (exact absurd h (by decide))

theorem full_name_inj (sname : String) (k₁ k₂ : BehaviorJobNames)
    (h : sname ++ "_" ++ k₁.value = sname ++ "_" ++ k₂.value) : k₁ = k₂ := by
  apply value_injective
  have h2 := congrArg String.data h
  simp only [String.data_append, List.append_assoc] at h2
  exact String.ext (List.append_cancel_left (List.append_cancel_left h2))

theorem idOfJob_inj (session : SessionData) (k₁ k₂ : BehaviorJobNames)
    (h : idOfJob session k₁ = idOfJob session k₂) : k₁ = k₂ := by
  unfold idOfJob generate_job_id at h
  exact full_name_inj _ _ _ (congrArg Prod.snd h)

theorem session_root_roundtrip (session_path : FsPath) :
    get_session_root (SessionData.load session_path) = session_path := by
  simp [get_session_root, SessionData.load, List.dropLast_concat]

/-- C6: the job identifier recomputed by the status reporter — which passes
the session path it was given — equals the identifier the pipeline uses,
which passes the parent of the session's raw-data directory: both key the
same tracker records, because the raw-data directory sits directly in the
session root, and the identifier is a deterministic function of the root and
the qualified job name. -/
theorem c6_job_id_agreement (session_path : FsPath) (job_name : String) :
    generate_job_id (get_session_root (SessionData.load session_path)) job_name
        = generate_job_id session_path job_name ∧
    ∀ ks : List BehaviorJobNames,
      _generate_job_ids (SessionData.load session_path) ks
        = ks.map (fun b =>
            ((SessionData.load session_path).session_name ++ "_" ++ b.value,
             generate_job_id session_path
               ((SessionData.load session_path).session_name ++ "_" ++ b.value))) := by
  constructor
  · rw [session_root_roundtrip]
  · intro ks
    unfold _generate_job_ids
    rw [session_root_roundtrip]

/-! ### Active-session bookkeeping lemmas -/

theorem keyIn_removeKey (active : ActiveSessions) (key : String) :
    keyIn (removeKey active key) key = false := by
  simp only [keyIn, removeKey]
  rw [List.any_eq_false]
  intro x hx
  rcases List.mem_filter.mp hx with ⟨_, h2⟩
  simpa using h2

theorem aliveIn_setKey_true (l : ActiveSessions) (key : String) :
    aliveIn (setKey l key true) key = true := by
  induction l with
  | nil => simp [setKey, aliveIn, List.find?]
  | cons p rest ih =>
    by_cases h : p.1 = key
    · simp [setKey, aliveIn, h, List.find?]
    · have hb : (p.1 == key) = false := by simpa using h
      simp only [setKey, h, if_false]
      simpa [aliveIn, List.find?, hb] using ih

theorem activeCount_setKey_true (l : ActiveSessions) (key : String)
    (h : keyIn l key = false) : activeCount (setKey l key true) = activeCount l + 1 := by
  induction l with
  | nil => simp [setKey, activeCount]
  | cons p rest ih =>
    have h1 : (p.1 == key) = false := by
      by_contra hc
      simp only [keyIn, List.any_cons, Bool.or_eq_false_iff] at h
      exact hc h.1
    have h2 : keyIn rest key = false := by
      simp only [keyIn, List.any_cons, Bool.or_eq_false_iff] at h
      exact h.2
    have hne : ¬ (p.1 = key) := by simpa using h1
    simp only [setKey, hne, if_false, activeCount, List.countP_cons]
    have := ih h2
    simp only [activeCount] at this
    omega

/-- C1: a background processing run launched by `start_processing_tool`
executes zero jobs: the tool itself reports that processing started and
records a live thread, but `_run_processing_in_background` passes a
`session_name` keyword to `_initialize_processing_tracker`, whose signature
does not accept it, so a `TypeError` is raised before any tracker record is
initialized or any job is started; the bare `except` swallows the error and
the thread exits after removing the session from `_active_sessions`. -/
theorem c1_background_runs_zero_jobs
    (cpu : Option Int) (active : ActiveSessions) (sp : FsPath)
    (logExists : BehaviorJobNames → Bool) (f : JobFlags) (workers : Int)
    (h2 : aliveIn active (pathKey sp) = false)
    (h4 : (base_jobs_to_run f logExists).isEmpty = false) :
    (∃ rest, (start_processing_tool cpu active true true sp logExists f workers).message
        = "Processing started" ++ rest) ∧
    (start_processing_tool cpu active true true sp logExists f workers).threadStarted
        = true ∧
    ∀ (ok : BehaviorJobNames → Bool) (active' : ActiveSessions)
      (jobs : List BehaviorJobNames),
      (_run_processing_in_background ok active' sp jobs).events = [] ∧
      (_run_processing_in_background ok active' sp jobs).swallowed = some .typeError ∧
      keyIn (_run_processing_in_background ok active' sp jobs).activeAfter (pathKey sp)
        = false := by
  refine ⟨?_, ?_, ?_⟩
  · refine ⟨": " ++ toString (base_jobs_to_run f logExists).length ++ " jobs | Workers: "
      ++ toString (_calculate_job_workers cpu workers) ++ " | Session: " ++ pathKey sp, ?_⟩
    simp [start_processing_tool, h2, h4, ← String.append_assoc]
  · simp [start_processing_tool, h2, h4]
  · intro ok active' jobs
    have hkw : kwargsCallOk initializeProcessingTrackerParams backgroundInitCallKwargs
        = false := by decide
    refine ⟨?_, ?_, ?_⟩ <;> simp [_run_processing_in_background, hkw, keyIn_removeKey]

theorem c1_witness :
    aliveIn [] (pathKey ["data", "s1"]) = false ∧
    (base_jobs_to_run ⟨false, false, false, false, false, false⟩ (fun _ => true)).isEmpty
      = false ∧
    ((∃ rest, (start_processing_tool (some 34) [] true true ["data", "s1"] (fun _ => true)
        ⟨false, false, false, false, false, false⟩ (-1)).message
        = "Processing started" ++ rest) ∧
     (start_processing_tool (some 34) [] true true ["data", "s1"] (fun _ => true)
        ⟨false, false, false, false, false, false⟩ (-1)).threadStarted = true ∧
     ∀ (ok : BehaviorJobNames → Bool) (active' : ActiveSessions)
       (jobs : List BehaviorJobNames),
       (_run_processing_in_background ok active' ["data", "s1"] jobs).events = [] ∧
       (_run_processing_in_background ok active' ["data", "s1"] jobs).swallowed
          = some .typeError ∧
       keyIn (_run_processing_in_background ok active' ["data", "s1"] jobs).activeAfter
          (pathKey ["data", "s1"]) = false) :=
  ⟨by decide, by decide,
   c1_background_runs_zero_jobs (some 34) [] ["data", "s1"] (fun _ => true)
     ⟨false, false, false, false, false, false⟩ (-1) (by decide) (by decide)⟩

/-- C5 counterexample: with `cpu_count = 34` the claimed admission formula
yields a limit of one concurrent session (both for the spec example's
reserved margin 15 and for the documented default margin 4), yet two
`start_processing_tool` calls for two distinct sessions both dispatch
background threads immediately, leaving two concurrently active sessions
and queueing nothing. -/
theorem c5_counterexample :
    (start_processing_tool (some 34) [] true true ["data", "a"] (fun _ => true)
        ⟨false, false, false, false, false, false⟩ (-1)).threadStarted = true ∧
    (start_processing_tool (some 34)
        (start_processing_tool (some 34) [] true true ["data", "a"] (fun _ => true)
          ⟨false, false, false, false, false, false⟩ (-1)).newActive
        true true ["data", "b"] (fun _ => true)
        ⟨false, false, false, false, false, false⟩ (-1)).threadStarted = true ∧
    activeCount (start_processing_tool (some 34)
        (start_processing_tool (some 34) [] true true ["data", "a"] (fun _ => true)
          ⟨false, false, false, false, false, false⟩ (-1)).newActive
        true true ["data", "b"] (fun _ => true)
        ⟨false, false, false, false, false, false⟩ (-1)).newActive = 2 ∧
    spec_max_parallel_sessions 34 15 = 1 ∧
    spec_max_parallel_sessions 34 4 = 1 := by
  decide

/-- C5 amended: `start_processing_tool` applies no session-level admission
limit: whenever a start request passes validation, the background thread is
dispatched immediately — never queued — and the number of live sessions
grows by one regardless of how many are already active; the only
CPU-derived budget computed is the per-job worker count. -/
theorem c5_no_admission_control
    (cpu : Option Int) (active : ActiveSessions) (sp : FsPath)
    (logExists : BehaviorJobNames → Bool) (f : JobFlags) (workers : Int)
    (h2 : aliveIn active (pathKey sp) = false)
    (h4 : (base_jobs_to_run f logExists).isEmpty = false) :
    (start_processing_tool cpu active true true sp logExists f workers).threadStarted
        = true ∧
    aliveIn (start_processing_tool cpu active true true sp logExists f workers).newActive
        (pathKey sp) = true ∧
    activeCount
        (start_processing_tool cpu active true true sp logExists f workers).newActive
      = activeCount (removeKey active (pathKey sp)) + 1 := by
  refine ⟨?_, ?_, ?_⟩
  · simp [start_processing_tool, h2, h4]
  · simp [start_processing_tool, h2, h4, aliveIn_setKey_true]
  · simp [start_processing_tool, h2, h4,
      activeCount_setKey_true _ _ (keyIn_removeKey active (pathKey sp))]

theorem c5_witness :
    aliveIn [("other", true)] (pathKey ["data", "s1"]) = false ∧
    (base_jobs_to_run ⟨true, true, true, true, true, true⟩ (fun _ => true)).isEmpty
        = false ∧
    ((start_processing_tool (some 34) [("other", true)] true true ["data", "s1"]
        (fun _ => true) ⟨true, true, true, true, true, true⟩ (-1)).threadStarted = true ∧
     aliveIn (start_processing_tool (some 34) [("other", true)] true true ["data", "s1"]
        (fun _ => true) ⟨true, true, true, true, true, true⟩ (-1)).newActive
        (pathKey ["data", "s1"]) = true ∧
     activeCount (start_processing_tool (some 34) [("other", true)] true true
        ["data", "s1"] (fun _ => true) ⟨true, true, true, true, true, true⟩ (-1)).newActive
       = activeCount (removeKey [("other", true)] (pathKey ["data", "s1"])) + 1) :=
  ⟨by decide, by decide,
   c5_no_admission_control (some 34) [("other", true)] ["data", "s1"] (fun _ => true)
     ⟨true, true, true, true, true, true⟩ (-1) (by decide) (by decide)⟩

/-- C7 counterexample: with zero available jobs (and the all-false flags
treated as all-requested), the computed job set is empty, and
`start_processing_tool` reports the no-op as an error and starts nothing —
contradicting the claim that the no-op is not reported as an error. -/
theorem c7_counterexample :
    (start_processing_tool (some 34) [] true true ["data", "s1"] (fun _ => false)
        ⟨false, false, false, false, false, false⟩ (-1)).message
      = "Error: No jobs available to run for session: data/s1" ∧
    (start_processing_tool (some 34) [] true true ["data", "s1"] (fun _ => false)
        ⟨false, false, false, false, false, false⟩ (-1)).threadStarted = false := by
  decide
set_option maxHeartbeats 1000000 in

/-- C7 amended: when the computed set of jobs to run is empty,
`process_session` completes without error and executes zero jobs (the only
tracker touch is an empty initialization), while `start_processing_tool`
reports an `Error: No jobs available to run` message and starts no
background thread. -/
theorem c7_empty_run
    (ok logExists : BehaviorJobNames → Bool) (sp : FsPath) (f : JobFlags)
    (cpu : Option Int) (active : ActiveSessions) (workers : Int)
    (h : base_jobs_to_run f logExists = [])
    (h2 : aliveIn active (pathKey sp) = false) :
    process_session ok logExists sp none f = ([Event.initJobs []], none) ∧
    (start_processing_tool cpu active true true sp logExists f workers).threadStarted
        = false ∧
    (∃ rest, (start_processing_tool cpu active true true sp logExists f workers).message
        = "Error: No jobs available to run for session: " ++ rest) := by
  refine ⟨?_, ?_, ?_⟩
  · unfold process_session
    dsimp only
    rw [h]
    rfl
  · simp [start_processing_tool, h2, h]
  · exact ⟨pathKey sp, by simp [start_processing_tool, h2, h]⟩

theorem c7_witness :
    base_jobs_to_run ⟨false, false, false, false, false, false⟩ (fun _ => false) = [] ∧
    aliveIn [] (pathKey ["data", "s1"]) = false ∧
    (process_session (fun _ => true) (fun _ => false) ["data", "s1"] none
        ⟨false, false, false, false, false, false⟩ = ([Event.initJobs []], none) ∧
     (start_processing_tool (some 34) [] true true ["data", "s1"] (fun _ => false)
        ⟨false, false, false, false, false, false⟩ (-1)).threadStarted = false ∧
     (∃ rest, (start_processing_tool (some 34) [] true true ["data", "s1"]
        (fun _ => false) ⟨false, false, false, false, false, false⟩ (-1)).message
        = "Error: No jobs available to run for session: " ++ rest)) :=
  ⟨by decide, by decide,
   c7_empty_run (fun _ => true) (fun _ => false) ["data", "s1"]
     ⟨false, false, false, false, false, false⟩ (some 34) [] (-1)
     (by decide) (by decide)⟩

theorem lookupFlag_resolve (logExists : BehaviorJobNames → Bool) (k : BehaviorJobNames) :
    lookupFlag (_resolve_available_jobs logExists) k = logExists k := by
  cases k <;> rfl

theorem mem_requested_jobs (f : JobFlags) (p : BehaviorJobNames × Bool) :
    p ∈ requested_jobs f ↔ p.2 = flagOf f p.1 := by
  obtain ⟨k, b⟩ := p
  cases k <;> simp [requested_jobs, flagOf, eq_comm]

theorem mem_base_jobs_any_true (f : JobFlags) (logExists : BehaviorJobNames → Bool)
    (h : (requested_jobs f).any (·.2) = true) (k : BehaviorJobNames) :
    k ∈ base_jobs_to_run f logExists ↔ (flagOf f k = true ∧ logExists k = true) := by
  unfold base_jobs_to_run effective_requested
  rw [if_pos h]
  simp only [List.mem_map, List.mem_filter]
  constructor
  · rintro ⟨p, ⟨hp_mem, hp_cond⟩, rfl⟩
    have hflag := (mem_requested_jobs f p).mp hp_mem
    rw [lookupFlag_resolve] at hp_cond
    rcases (Bool.and_eq_true _ _).mp hp_cond with ⟨h1, h2⟩
    exact ⟨hflag ▸ h1, h2⟩
  · rintro ⟨h1, h2⟩
    refine ⟨(k, flagOf f k), ⟨(mem_requested_jobs f (k, flagOf f k)).mpr rfl, ?_⟩, rfl⟩
    rw [lookupFlag_resolve]
    simp [h1, h2]

theorem map_fst_filter_pair (g : BehaviorJobNames → Bool) (L : List BehaviorJobNames) :
    ((L.map (fun k => (k, true))).filter (fun p => p.2 && g p.1)).map Prod.fst
      = L.filter g := by
  induction L with
  | nil => rfl
  | cons k rest ih => by_cases hk : g k = true <;> simp [List.filter, hk, ih]

theorem base_jobs_all_false (f : JobFlags) (logExists : BehaviorJobNames → Bool)
    (h : (requested_jobs f).any (·.2) = false) :
    base_jobs_to_run f logExists = behaviorJobNamesList.filter logExists := by
  unfold base_jobs_to_run effective_requested
  rw [if_neg (by simp [h])]
  have hmap : (requested_jobs f).map (fun p => (p.1, true))
      = behaviorJobNamesList.map (fun k => (k, true)) := rfl
  rw [hmap]
  have hg : (fun k => lookupFlag (_resolve_available_jobs logExists) k) = logExists :=
    funext (lookupFlag_resolve logExists)
  calc ((behaviorJobNamesList.map (fun k => (k, true))).filter
          (fun p => p.2 && lookupFlag (_resolve_available_jobs logExists) p.1)).map Prod.fst
      = behaviorJobNamesList.filter
          (fun k => lookupFlag (_resolve_available_jobs logExists) k) :=
        map_fst_filter_pair _ _
    _ = behaviorJobNamesList.filter logExists := by rw [hg]

theorem dictGetId_generate (session : SessionData) (jobs : List BehaviorJobNames)
    (k : BehaviorJobNames) (h : k ∈ jobs) :
    dictGetId (_generate_job_ids session jobs)
        (session.session_name ++ "_" ++ k.value)
      = some (idOfJob session k) := by
  induction jobs with
  | nil => cases h
  | cons b rest ih =>
    by_cases hkb : session.session_name ++ "_" ++ k.value
        = session.session_name ++ "_" ++ b.value
    · have hk : k = b := full_name_inj _ _ _ hkb
      subst hk
      simp [dictGetId, _generate_job_ids, List.find?, idOfJob]
    · have hb : ((session.session_name ++ "_" ++ b.value
          == session.session_name ++ "_" ++ k.value) : Bool) = false := by
        simp
        exact fun he => hkb he.symm
      have hmem : k ∈ rest := by
        rcases List.mem_cons.mp h with rfl | hm
        · exact absurd rfl hkb
        · exact hm
      simp only [_generate_job_ids, List.map_cons, dictGetId, List.find?, hb]
      exact ih hmem

theorem extractorCalls_append (es₁ es₂ : List Event) :
    extractorCalls (es₁ ++ es₂) = extractorCalls es₁ ++ extractorCalls es₂ := by
  simp [extractorCalls]

theorem extractorCalls_successTrace (idOf : BehaviorJobNames → JobId)
    (jobs : List BehaviorJobNames) :
    extractorCalls (successTrace idOf jobs) = jobs := by
  induction jobs with
  | nil => rfl
  | cons k rest ih => simp [successTrace, extractorCalls] at ih ⊢; exact ih

theorem runJobsLocal_nil (ok : BehaviorJobNames → Bool) (sname : String)
    (ids : List (String × JobId)) : runJobsLocal ok sname ids [] = ([], none) := rfl

theorem runJobsLocal_cons (ok : BehaviorJobNames → Bool) (sname : String)
    (ids : List (String × JobId)) (b : BehaviorJobNames) (rest : List BehaviorJobNames) :
    runJobsLocal ok sname ids (b :: rest)
      = (match dictGetId ids (sname ++ "_" ++ b.value) with
         | none => ([], some .keyError)
         | some job_id =>
           let r := _execute_job ok (sname ++ "_" ++ b.value) job_id
           match r.2 with
           | some e => (r.1, some e)
           | none =>
             let r' := runJobsLocal ok sname ids rest
             (r.1 ++ r'.1, r'.2)) := rfl

theorem runJobsLocal_all_ok (ok : BehaviorJobNames → Bool) (session : SessionData)
    (jobs0 : List BehaviorJobNames) :
    ∀ jobs : List BehaviorJobNames, (∀ k ∈ jobs, k ∈ jobs0) →
    (∀ k ∈ jobs, ok k = true) →
    runJobsLocal ok session.session_name (_generate_job_ids session jobs0) jobs
      = (successTrace (idOfJob session) jobs, none) := by
  intro jobs
  induction jobs with
  | nil => intro _ _; rfl
  | cons b rest ih =>
    intro hsub hok
    have hb := dictGetId_generate session jobs0 b (hsub b (List.mem_cons_self _ _))
    rw [runJobsLocal_cons, hb]
    dsimp only
    unfold _execute_job
    rw [matchJob_full session.session_name b]
    dsimp only
    rw [if_pos (hok b (List.mem_cons_self _ _))]
    dsimp only
    rw [ih (fun k hk => hsub k (List.mem_cons_of_mem _ hk))
        (fun k hk => hok k (List.mem_cons_of_mem _ hk))]
    rfl

theorem mem_successTrace (idOf : BehaviorJobNames → JobId) (jobs : List BehaviorJobNames)
    (e : Event) (h : e ∈ successTrace idOf jobs) :
    ∃ k, k ∈ jobs ∧ (e = .trackerStart (idOf k) ∨ e = .extractorCall k
      ∨ e = .trackerComplete (idOf k)) := by
  induction jobs with
  | nil => cases h
  | cons b rest ih =>
    rcases List.mem_append.mp h with hh | ht
    · simp only [List.mem_cons, List.not_mem_nil, or_false] at hh
      rcases hh with rfl | rfl | rfl
      · exact ⟨b, List.mem_cons_self _ _, Or.inl rfl⟩
      · exact ⟨b, List.mem_cons_self _ _, Or.inr (Or.inl rfl)⟩
      · exact ⟨b, List.mem_cons_self _ _, Or.inr (Or.inr rfl)⟩
    · rcases ih ht with ⟨k, hk, he⟩
      exact ⟨k, List.mem_cons_of_mem _ hk, he⟩

theorem replay_successTrace_of_ne (idOf : BehaviorJobNames → JobId)
    (jobs : List BehaviorJobNames) (t : Tracker) (id : JobId)
    (h : ∀ k ∈ jobs, idOf k ≠ id) :
    getStatus (replay t (successTrace idOf jobs)) id = getStatus t id := by
  apply getStatus_replay_of_not_writes
  intro e he
  rcases mem_successTrace _ _ _ he with ⟨k, hk, he'⟩
  rcases he' with rfl | rfl | rfl
  · exact h k hk
  · exact fun hf => hf
  · exact h k hk

theorem successTrace_cons (idOf : BehaviorJobNames → JobId) (b : BehaviorJobNames)
    (rest : List BehaviorJobNames) :
    successTrace idOf (b :: rest)
      = [.trackerStart (idOf b), .extractorCall b, .trackerComplete (idOf b)]
          ++ successTrace idOf rest := rfl

theorem replay_successTrace_mem (idOf : BehaviorJobNames → JobId)
    (jobs : List BehaviorJobNames) (t : Tracker) (k : BehaviorJobNames)
    (hinj : ∀ k₁ k₂, idOf k₁ = idOf k₂ → k₁ = k₂) (hnd : jobs.Nodup) (hk : k ∈ jobs) :
    getStatus (replay t (successTrace idOf jobs)) (idOf k) = some .succeeded := by
  induction jobs generalizing t with
  | nil => cases hk
  | cons b rest ih =>
    rw [successTrace_cons, replay_append]
    rcases List.mem_cons.mp hk with rfl | hmem
    · have hrest : ∀ k' ∈ rest, idOf k' ≠ idOf k := by
        intro k' hk' he
        exact (List.nodup_cons.mp hnd).1 ((hinj _ _ he) ▸ hk')
      rw [replay_successTrace_of_ne _ _ _ _ hrest]
      exact getStatus_setStatus_self _ _ _
    · exact ih _ (List.nodup_cons.mp hnd).2 hmem

theorem extractorCall_mem_iff (k : BehaviorJobNames) (es : List Event) :
    Event.extractorCall k ∈ es ↔ k ∈ extractorCalls es := by
  induction es with
  | nil => simp [extractorCalls]
  | cons e rest ih =>
    cases e <;> simp [extractorCalls, List.filterMap_cons] at ih ⊢ <;> simp [ih]

theorem runJobsLocal_fail (ok : BehaviorJobNames → Bool) (session : SessionData)
    (jobs0 : List BehaviorJobNames) (p : List BehaviorJobNames) (b : BehaviorJobNames)
    (s : List BehaviorJobNames)
    (hsub : ∀ k ∈ p ++ b :: s, k ∈ jobs0)
    (hp : ∀ k ∈ p, ok k = true) (hb : ok b = false) :
    runJobsLocal ok session.session_name (_generate_job_ids session jobs0) (p ++ b :: s)
      = (successTrace (idOfJob session) p
          ++ [.trackerStart (idOfJob session b), .extractorCall b,
              .trackerFail (idOfJob session b)], some .extractorFailure) := by
  induction p with
  | nil =>
    rw [List.nil_append, runJobsLocal_cons,
      dictGetId_generate session jobs0 b (hsub b (List.mem_cons_self _ _))]
    dsimp only
    unfold _execute_job
    rw [matchJob_full]
    dsimp only
    rw [if_neg (by simp [hb])]
    rfl
  | cons a p' ih =>
    rw [List.cons_append, runJobsLocal_cons,
      dictGetId_generate session jobs0 a (hsub a (List.mem_cons_self _ _))]
    dsimp only
    unfold _execute_job
    rw [matchJob_full]
    dsimp only
    rw [if_pos (hp a (List.mem_cons_self _ _))]
    dsimp only
    rw [ih (fun k hk => hsub k (List.mem_cons_of_mem _ hk))
        (fun k hk => hp k (List.mem_cons_of_mem _ hk))]
    rfl

theorem map_fst_effective (f : JobFlags) :
    (effective_requested (requested_jobs f)).map Prod.fst = behaviorJobNamesList := by
  unfold effective_requested
  split
  · rfl
  · rfl

theorem base_jobs_to_run_nodup (f : JobFlags) (logExists : BehaviorJobNames → Bool) :
    (base_jobs_to_run f logExists).Nodup := by
  have hsub : List.Sublist (base_jobs_to_run f logExists) behaviorJobNamesList := by
    rw [← map_fst_effective f]
    unfold base_jobs_to_run
    exact (List.filter_sublist _).map _
  exact (show behaviorJobNamesList.Nodup by decide).sublist hsub

theorem map_snd_generate (session : SessionData) (jobs : List BehaviorJobNames) :
    (_generate_job_ids session jobs).map (·.2) = jobs.map (idOfJob session) := by
  unfold _generate_job_ids idOfJob
  rw [List.map_map]
  rfl

theorem replay_fail3_of_ne (idb id : JobId) (t : Tracker) (bk : BehaviorJobNames)
    (h : idb ≠ id) :
    getStatus (replay t [.trackerStart idb, .extractorCall bk, .trackerFail idb]) id
      = getStatus t id := by
  apply getStatus_replay_of_not_writes
  intro e he
  simp only [List.mem_cons, List.not_mem_nil, or_false] at he
  rcases he with rfl | rfl | rfl
  · exact h
  · exact fun hf => hf
  · exact h

/-- C2 (amended): when one job's extractor raises, `process_session` in
local mode marks that job FAILED and re-raises the exception, aborting the
run: jobs completed before the failure are SUCCEEDED, but the remaining
requested jobs are never attempted — their extractors are not invoked and
their tracker records stay PENDING — and no boolean session verdict is
produced. -/
theorem c2_session_aborts (ok logExists : BehaviorJobNames → Bool) (sp : FsPath)
    (f : JobFlags) (p s : List BehaviorJobNames) (b : BehaviorJobNames)
    (hsplit : base_jobs_to_run f logExists = p ++ b :: s)
    (hp : ∀ k ∈ p, ok k = true) (hb : ok b = false) :
    (process_session ok logExists sp none f).2 = some .extractorFailure ∧
    (∀ k ∈ p, getStatus (replay [] (process_session ok logExists sp none f).1)
        (idOfJob (SessionData.load sp) k) = some .succeeded) ∧
    getStatus (replay [] (process_session ok logExists sp none f).1)
        (idOfJob (SessionData.load sp) b) = some .failed ∧
    (∀ k ∈ s, getStatus (replay [] (process_session ok logExists sp none f).1)
        (idOfJob (SessionData.load sp) k) = some .pending) ∧
    (∀ k ∈ s, Event.extractorCall k ∉ (process_session ok logExists sp none f).1) := by
  have hnd : (p ++ b :: s).Nodup := hsplit ▸ base_jobs_to_run_nodup f logExists
  obtain ⟨hndp, hndbs, hdisj⟩ := List.nodup_append.mp hnd
  have hbs : b ∉ s := (List.nodup_cons.mp hndbs).1
  have hr : process_session ok logExists sp none f
      = ([Event.initJobs (((p ++ b :: s).map (idOfJob (SessionData.load sp))))]
          ++ (successTrace (idOfJob (SessionData.load sp)) p
              ++ [.trackerStart (idOfJob (SessionData.load sp) b), .extractorCall b,
                  .trackerFail (idOfJob (SessionData.load sp) b)]),
         some .extractorFailure) := by
    unfold process_session
    dsimp only
    unfold _initialize_processing_tracker
    dsimp only
    rw [hsplit, map_snd_generate,
      runJobsLocal_fail ok (SessionData.load sp) (p ++ b :: s) p b s
        (fun k hk => hk) hp hb]
  rw [hr]
  set session := SessionData.load sp
  set t0 : Tracker := initialize_jobs []
      ((p ++ b :: s).map (idOfJob session)) with ht0
  have hE1 : ∀ id : JobId,
      getStatus (replay []
        ([Event.initJobs (((p ++ b :: s).map (idOfJob session)))]
          ++ (successTrace (idOfJob session) p
              ++ [.trackerStart (idOfJob session b), .extractorCall b,
                  .trackerFail (idOfJob session b)]))) id
      = getStatus (replay (replay t0 (successTrace (idOfJob session) p))
          [.trackerStart (idOfJob session b), .extractorCall b,
           .trackerFail (idOfJob session b)]) id := by
    intro id
    rw [replay_append, replay_append]
    rfl
  refine ⟨rfl, ?_, ?_, ?_, ?_⟩
  · intro k hk
    rw [hE1]
    have hkb : idOfJob session b ≠ idOfJob session k := by
      intro he
      have : b = k := idOfJob_inj session _ _ he
      exact (hdisj hk) (this ▸ List.mem_cons_self _ _)
    rw [replay_fail3_of_ne _ _ _ _ hkb]
    exact replay_successTrace_mem _ _ _ _ (idOfJob_inj session) hndp hk
  · rw [hE1]
    exact getStatus_setStatus_self _ _ _
  · intro k hk
    have hkp : k ∉ p := fun hkp => (hdisj hkp) (List.mem_cons_of_mem _ hk)
    have hkb : k ≠ b := fun he => hbs (he ▸ hk)
    rw [hE1]
    rw [replay_fail3_of_ne _ _ _ _ (fun he => hkb (idOfJob_inj session _ _ he).symm)]
    rw [replay_successTrace_of_ne _ _ _ _
      (fun k' hk' he => hkp (by
        have hkk : k' = k := idOfJob_inj session k' k he
        exact hkk ▸ hk'))]
    rw [ht0]
    exact getStatus_initialize_of_mem _ _ _
      (List.mem_map_of_mem _ (List.mem_append.mpr (Or.inr (List.mem_cons_of_mem _ hk))))
  · intro k hk hc
    have hkp : k ∉ p := fun hkp => (hdisj hkp) (List.mem_cons_of_mem _ hk)
    have hkb : k ≠ b := fun he => hbs (he ▸ hk)
    rw [extractorCall_mem_iff] at hc
    have e1 : extractorCalls [Event.initJobs ((p ++ b :: s).map (idOfJob session))]
        = [] := rfl
    have e2 : extractorCalls [.trackerStart (idOfJob session b), .extractorCall b,
        .trackerFail (idOfJob session b)] = [b] := rfl
    rw [extractorCalls_append, extractorCalls_append, extractorCalls_successTrace,
      e1, e2] at hc
    simp only [List.nil_append, List.mem_append, List.mem_singleton] at hc
    rcases hc with h1 | h1
    · exact hkp h1
    · exact hkb h1

/-- C4: the set of jobs a session run selects and executes equals
`{k : requested[k] and available[k]}`; when every requested flag is false
the request is treated as all-requested, so the selected jobs are exactly
the available jobs; and a run whose extractors all return normally invokes
exactly the selected jobs' extractors and raises nothing. -/
theorem c4_job_selection (f : JobFlags) (logExists ok : BehaviorJobNames → Bool)
    (sp : FsPath) :
    ((requested_jobs f).any (·.2) = true →
      ∀ k, k ∈ base_jobs_to_run f logExists
        ↔ (flagOf f k = true ∧ logExists k = true)) ∧
    ((requested_jobs f).any (·.2) = false →
      base_jobs_to_run f logExists = behaviorJobNamesList.filter logExists) ∧
    ((∀ k, ok k = true) →
      extractorCalls (process_session ok logExists sp none f).1
          = base_jobs_to_run f logExists ∧
      (process_session ok logExists sp none f).2 = none) := by
  refine ⟨fun h k => mem_base_jobs_any_true f logExists h k,
          fun h => base_jobs_all_false f logExists h, fun hok => ?_⟩
  have hr : process_session ok logExists sp none f
      = ([Event.initJobs ((_generate_job_ids (SessionData.load sp)
            (base_jobs_to_run f logExists)).map (·.2))]
          ++ successTrace (idOfJob (SessionData.load sp)) (base_jobs_to_run f logExists),
         none) := by
    unfold process_session
    dsimp only
    unfold _initialize_processing_tracker
    dsimp only
    rw [runJobsLocal_all_ok ok (SessionData.load sp) _ _ (fun k hk => hk)
        (fun k _ => hok k)]
  rw [hr]
  exact ⟨by rw [extractorCalls_append, extractorCalls_successTrace]; rfl, rfl⟩

theorem dictGetName_setName_ne (d : List (JobId × String)) (id id' : JobId) (n : String)
    (h : id' ≠ id) : dictGetName (setName d id n) id' = dictGetName d id' := by
  induction d with
  | nil =>
    have hne : ((id == id') : Bool) = false := by
      simp
      exact fun he => h he.symm
    simp [setName, dictGetName, List.find?, hne]
  | cons q rest ih =>
    by_cases hq : q.1 = id
    · have hne : ((id == id') : Bool) = false := by
        simp
        exact fun he => h he.symm
      have hne' : ((q.1 == id') : Bool) = false := by
        simp
        exact fun he => h (he.symm.trans hq)
      simp [setName, dictGetName, List.find?, hq, hne, hne']
    · by_cases hq' : q.1 = id'
      · have hb : ((q.1 == id') : Bool) = true := by simpa using hq'
        simp only [setName, hq, if_false]
        simp [dictGetName, List.find?, hb]
      · have hb : ((q.1 == id') : Bool) = false := by simpa using hq'
        simp only [setName, hq, if_false]
        simpa [dictGetName, List.find?, hb] using ih

theorem dictGetName_foldl_none (l : List (String × JobId)) (jid : JobId)
    (h : ∀ q ∈ l, jid ≠ q.2) :
    ∀ acc : List (JobId × String), dictGetName acc jid = none →
    dictGetName (l.foldl (fun acc p => setName acc p.2 p.1) acc) jid = none := by
  induction l with
  | nil => exact fun acc hacc => hacc
  | cons q rest ih =>
    intro acc hacc
    apply ih (fun q' hq' => h q' (List.mem_cons_of_mem _ hq'))
    rw [dictGetName_setName_ne _ _ _ _ (h q (List.mem_cons_self _ _))]
    exact hacc

/-- C9: in remote mode, when the supplied identifier matches no job
derivable for the session, `process_session` marks that identifier FAILED in
the tracker and raises a `ValueError` without invoking any extractor;
`fail_job` persists a FAILED record even for an identifier that was never
initialized (shown by replaying over an arbitrary prior tracker state). -/
theorem c9_remote_unknown_id (ok logExists : BehaviorJobNames → Bool) (sp : FsPath)
    (f : JobFlags) (jid : JobId) (t : Tracker)
    (h : ∀ k ∈ behaviorJobNamesList, jid ≠ idOfJob (SessionData.load sp) k) :
    process_session ok logExists sp (some jid) f
        = ([Event.trackerFail jid], some .valueError) ∧
    getStatus (replay t [Event.trackerFail jid]) jid = some .failed ∧
    extractorCalls [Event.trackerFail jid] = [] := by
  refine ⟨?_, getStatus_setStatus_self _ _ _, rfl⟩
  have hnone : dictGetName
      ((_generate_job_ids (SessionData.load sp) behaviorJobNamesList).foldl
        (fun acc p => setName acc p.2 p.1) []) jid = none := by
    apply dictGetName_foldl_none _ _ ?_ [] rfl
    intro q hq
    rcases List.mem_map.mp hq with ⟨k, hk, rfl⟩
    exact h k hk
  unfold process_session
  dsimp only
  rw [hnone]

/-- C2 counterexample: with two available jobs and the first extractor
raising, `process_session` re-raises after marking the first job FAILED and
never attempts the second job — its extractor is not invoked and its record
stays PENDING — contradicting the claim that the session runner attempts all
remaining requested jobs and reports an overall `False` verdict with the
completed jobs SUCCEEDED. -/
theorem c2_counterexample :
    (process_session okFaceOnly availRuntimeFace ["data", "s1"] none
        ⟨false, false, false, false, false, false⟩).2 = some .extractorFailure ∧
    Event.extractorCall BehaviorJobNames.FACE_CAMERA
      ∉ (process_session okFaceOnly availRuntimeFace ["data", "s1"] none
        ⟨false, false, false, false, false, false⟩).1 ∧
    getStatus (replay [] (process_session okFaceOnly availRuntimeFace ["data", "s1"]
        none ⟨false, false, false, false, false, false⟩).1)
        (idOfJob (SessionData.load ["data", "s1"]) BehaviorJobNames.FACE_CAMERA)
      = some .pending := by
  decide

theorem c2_witness :
    base_jobs_to_run ⟨false, false, false, false, false, false⟩ availRuntimeFace
        = [] ++ BehaviorJobNames.RUNTIME :: [BehaviorJobNames.FACE_CAMERA] ∧
    (∀ k ∈ ([] : List BehaviorJobNames), okFaceOnly k = true) ∧
    okFaceOnly BehaviorJobNames.RUNTIME = false ∧
    ((process_session okFaceOnly availRuntimeFace ["data", "s1"] none
        ⟨false, false, false, false, false, false⟩).2 = some .extractorFailure ∧
     (∀ k ∈ ([] : List BehaviorJobNames),
        getStatus (replay [] (process_session okFaceOnly availRuntimeFace ["data", "s1"]
          none ⟨false, false, false, false, false, false⟩).1)
          (idOfJob (SessionData.load ["data", "s1"]) k) = some .succeeded) ∧
     getStatus (replay [] (process_session okFaceOnly availRuntimeFace ["data", "s1"]
        none ⟨false, false, false, false, false, false⟩).1)
        (idOfJob (SessionData.load ["data", "s1"]) BehaviorJobNames.RUNTIME)
        = some .failed ∧
     (∀ k ∈ [BehaviorJobNames.FACE_CAMERA],
        getStatus (replay [] (process_session okFaceOnly availRuntimeFace ["data", "s1"]
          none ⟨false, false, false, false, false, false⟩).1)
          (idOfJob (SessionData.load ["data", "s1"]) k) = some .pending) ∧
     (∀ k ∈ [BehaviorJobNames.FACE_CAMERA],
        Event.extractorCall k ∉ (process_session okFaceOnly availRuntimeFace ["data", "s1"]
          none ⟨false, false, false, false, false, false⟩).1)) :=
  ⟨by decide, fun k hk => absurd hk (List.not_mem_nil k), rfl,
   c2_session_aborts okFaceOnly availRuntimeFace ["data", "s1"]
     ⟨false, false, false, false, false, false⟩ [] [BehaviorJobNames.FACE_CAMERA]
     BehaviorJobNames.RUNTIME (by decide)
     (fun k hk => absurd hk (List.not_mem_nil k)) rfl⟩

theorem c4_witness :
    ((requested_jobs ⟨true, false, false, false, false, false⟩).any (·.2) = true) ∧
    (∀ k, k ∈ base_jobs_to_run ⟨true, false, false, false, false, false⟩ (fun _ => true)
        ↔ (flagOf ⟨true, false, false, false, false, false⟩ k = true
            ∧ (fun (_ : BehaviorJobNames) => true) k = true)) ∧
    ((requested_jobs ⟨false, false, false, false, false, false⟩).any (·.2) = false) ∧
    (base_jobs_to_run ⟨false, false, false, false, false, false⟩ (fun _ => true)
        = behaviorJobNamesList.filter (fun _ => true)) ∧
    (∀ k : BehaviorJobNames, (fun (_ : BehaviorJobNames) => true) k = true) ∧
    (extractorCalls (process_session (fun _ => true) (fun _ => true) ["data", "s1"] none
          ⟨false, false, false, false, false, false⟩).1
        = base_jobs_to_run ⟨false, false, false, false, false, false⟩ (fun _ => true) ∧
     (process_session (fun _ => true) (fun _ => true) ["data", "s1"] none
          ⟨false, false, false, false, false, false⟩).2 = none) :=
  ⟨by decide,
   (c4_job_selection ⟨true, false, false, false, false, false⟩ (fun _ => true)
     (fun _ => true) ["data", "s1"]).1 (by decide),
   by decide,
   (c4_job_selection ⟨false, false, false, false, false, false⟩ (fun _ => true)
     (fun _ => true) ["data", "s1"]).2.1 (by decide),
   fun _ => rfl,
   (c4_job_selection ⟨false, false, false, false, false, false⟩ (fun _ => true)
     (fun _ => true) ["data", "s1"]).2.2 (fun _ => rfl)⟩

theorem c9_witness :
    (∀ k ∈ behaviorJobNamesList, (([], "unknown-id") : JobId)
        ≠ idOfJob (SessionData.load ["data", "s1"]) k) ∧
    (process_session (fun _ => true) (fun _ => true) ["data", "s1"]
        (some (([], "unknown-id") : JobId)) ⟨false, false, false, false, false, false⟩
        = ([Event.trackerFail (([], "unknown-id") : JobId)], some .valueError) ∧
     getStatus (replay [] [Event.trackerFail (([], "unknown-id") : JobId)])
        (([], "unknown-id") : JobId) = some .failed ∧
     extractorCalls [Event.trackerFail (([], "unknown-id") : JobId)] = []) :=
  ⟨by decide,
   c9_remote_unknown_id (fun _ => true) (fun _ => true) ["data", "s1"]
     ⟨false, false, false, false, false, false⟩ ([], "unknown-id") [] (by decide)⟩

theorem statusCount_partition (jobs : Tracker) :
    jobs.countP (fun j => j.2 == JobStatus.succeeded)
      + jobs.countP (fun j => j.2 == JobStatus.failed)
      + jobs.countP (fun j => j.2 == JobStatus.running)
      + jobs.countP (fun j => j.2 == JobStatus.pending) = jobs.length := by
  induction jobs with
  | nil => rfl
  | cons j rest ih =>
    simp only [List.countP_cons, List.length_cons]
    cases h : j.2 <;> simp [h] <;> omega

set_option synthInstance.maxHeartbeats 1000000 in
set_option maxHeartbeats 2000000 in
/-- C3 (amended): the status reporter's derivation agrees, on every input,
with the claim's first-match rules — PROCESSING when a worker is active or a
record is RUNNING; FAILED when all attempted jobs (jobs whose status left
PENDING) are terminal with at least one failure and zero successes; PARTIAL
on mixed terminal outcomes; SUCCEEDED when all records succeeded; PENDING
when records exist, not all terminal, and nothing runs; NOT_STARTED when no
tracker file exists or the tracker holds no records; and no error is raised
in any case. -/
theorem c3_status_derivation (is_active : Bool) (tf : Option Tracker) :
    _get_session_status is_active tf = claimSessionStatus is_active tf := by
  cases tf with
  | none => rfl
  | some jobs =>
    unfold _get_session_status claimSessionStatus
    dsimp only
    by_cases hemp : jobs.isEmpty
    · rw [if_pos hemp, if_pos hemp]
    · simp only [hemp, Bool.false_eq_true, if_false]
      have hpart := statusCount_partition jobs
      by_cases hA : is_active = true
      · simp [hA]
      · have hA' : is_active = false := by revert hA; cases is_active <;> simp
        by_cases hR : 0 < jobs.countP (fun j => j.2 == JobStatus.running)
        · have hanyR : (jobs.any fun j => j.2 == JobStatus.running) = true := by
            rw [List.any_eq_true]
            exact List.countP_pos_iff.mp hR
          simp [hA', hanyR, hR]
        · have hR0 : jobs.countP (fun j => j.2 == JobStatus.running) = 0 := by omega
          have hanyR : (jobs.any fun j => j.2 == JobStatus.running) = false := by
            rw [← Bool.not_eq_true, List.any_eq_true]
            intro hex
            exact hR (List.countP_pos_iff.mpr hex)
          have hatt : (jobs.all fun j => !j.2.attempted || j.2.terminal) = true := by
            rw [List.all_eq_true]
            intro j hj
            have hnr := (List.countP_eq_zero.mp hR0) j hj
            cases hjs : j.2 with
            | running => simp [hjs] at hnr
            | pending => simp [JobStatus.attempted]
            | succeeded => simp [JobStatus.attempted, JobStatus.terminal]
            | failed => simp [JobStatus.attempted, JobStatus.terminal]
          by_cases hF : 0 < jobs.countP (fun j => j.2 == JobStatus.failed)
          · have hanyF : (jobs.any fun j => j.2 == JobStatus.failed) = true := by
              rw [List.any_eq_true]
              exact List.countP_pos_iff.mp hF
            by_cases hS : 0 < jobs.countP (fun j => j.2 == JobStatus.succeeded)
            · have hanyS : (jobs.any fun j => j.2 == JobStatus.succeeded) = true := by
                rw [List.any_eq_true]
                exact List.countP_pos_iff.mp hS
              simp [hA', hanyR, hR, hF, hS, hanyS, hanyF]
            · have hanyS : (jobs.any fun j => j.2 == JobStatus.succeeded) = false := by
                rw [← Bool.not_eq_true, List.any_eq_true]
                intro hex
                exact hS (List.countP_pos_iff.mpr hex)
              simp [hA', hanyR, hR, hF, hS, hanyS, hanyF, hatt]
          · have hanyF : (jobs.any fun j => j.2 == JobStatus.failed) = false := by
              rw [← Bool.not_eq_true, List.any_eq_true]
              intro hex
              exact hF (List.countP_pos_iff.mpr hex)
            by_cases hT : jobs.countP (fun j => j.2 == JobStatus.succeeded) = jobs.length
            · have hallS : (jobs.all fun j => j.2 == JobStatus.succeeded) = true := by
                rw [List.all_eq_true]
                exact List.countP_eq_length.mp hT
              simp [hA', hanyR, hR, hF, hanyF, hT, hallS]
            · have hP : 0 < jobs.countP (fun j => j.2 == JobStatus.pending) := by
                have hle := List.countP_le_length
                  (p := fun (j : JobId × JobStatus) => j.2 == JobStatus.succeeded)
                  (l := jobs)
                omega
              obtain ⟨jp, hjp, hjpp⟩ := List.countP_pos_iff.mp hP
              have hjp2 : jp.2 = JobStatus.pending := by simpa using hjpp
              have hallS : (jobs.all fun j => j.2 == JobStatus.succeeded) = false := by
                rw [← Bool.not_eq_true, List.all_eq_true]
                intro hall
                have h1 := hall jp hjp
                rw [hjp2] at h1
                exact absurd h1 (by decide)
              have hallT : (jobs.all fun j => j.2.terminal) = false := by
                rw [← Bool.not_eq_true, List.all_eq_true]
                intro hall
                have h1 := hall jp hjp
                rw [hjp2] at h1
                exact absurd h1 (by decide)
              simp [hA', hanyR, hR, hF, hanyF, hT, hP, hallS, hallT, hemp]

/-- C3 counterexample: the reporter returns NOT_STARTED for a tracker file
that exists but holds no job records, so NOT_STARTED does not hold exactly
when no tracker file exists. -/
theorem c3_counterexample :
    _get_session_status false (some []) = "NOT_STARTED" ∧
    some ([] : Tracker) ≠ (none : Option Tracker) :=
  ⟨rfl, by simp⟩
